import Mathlib

/-!
Verification of the language-routing and orchestration helpers of the
Vietnamese/Japanese translator application (src/app.py).

The remote services (statistical language identifier, chat-completion
translation, speech-to-text, text-to-speech, local audio re-encoding) are
modelled as oracle parameters describing the outcome the external call would
produce; the functions below mirror the control flow of the Python source over
those oracles, and additionally return an explicit trace of the external calls
issued so that call-count claims can be stated.
-/

namespace JPViet

/-- Python str.strip with no argument: remove leading and trailing whitespace
characters. Written over the character list so that it evaluates by
structural reduction. -/
def pyStrip (s : String) : String :=
  String.mk (((s.toList.dropWhile Char.isWhitespace).reverse.dropWhile
    Char.isWhitespace).reverse)

/-- Mirrors the character-range test in detect_lang_simple: the character lies
between U+3040 and U+30FF (kana) or between U+4E00 and U+9FFF (CJK unified
ideographs), both ranges inclusive as in the Python chained comparisons. -/
def isKanaCJK (ch : Char) : Bool :=
  (0x3040 ≤ ch.toNat && ch.toNat ≤ 0x30FF) || (0x4E00 ≤ ch.toNat && ch.toNat ≤ 0x9FFF)

/-- Mirrors the final line of detect_lang_simple: "vi" when every character has
code point below 128, otherwise "ja". -/
def asciiHeuristic (text : String) : String :=
  if text.toList.all (fun c => c.toNat < 128) then "vi" else "ja"

/-- Embedding of detect_lang_simple. The langdetect oracle is the outcome of
the statistical identifier on this text: either an exception or a language
code. The fast path checks the kana/CJK ranges; otherwise the identifier is
consulted and its result accepted only when it is "ja" or "vi"; any exception
or other code falls through to the ASCII heuristic. -/
def detect_lang_simple (langdetect : Except Unit String) (text : String) : String :=
  if text.toList.any isKanaCJK then "ja"
  else
    match langdetect with
    | Except.ok lang => if lang = "ja" || lang = "vi" then lang else asciiHeuristic text
    | Except.error _ => asciiHeuristic text

/-- The fixed system message sent with every remote translation request. -/
def system_prompt : String :=
  "あなたはプロの翻訳者です。文章を簡潔かつ自然に翻訳してください。"
    ++ "- ソース言語: 'vi'=ベトナム語, 'ja'=日本語"
    ++ "- ターゲット言語: 'ja'=日本語, 'vi'=ベトナム語"
    ++ "- 数字や名前はそのまま保持"
    ++ "- 説明は追加せず翻訳文のみ出力"

/-- One remote translation request, recorded with its language tags and the
exact user-message content built by translate_text. -/
structure TranslateCall where
  systemMessage : String
  src : String
  dst : String
  userMessage : String
deriving DecidableEq, Repr

/-- The request translate_text builds for the remote call: the fixed system
message plus the user message carrying the SRC/DST tags and the text. -/
def mkTranslateCall (src dst text : String) : TranslateCall :=
  { systemMessage := system_prompt, src := src, dst := dst,
    userMessage := "[SRC=" ++ src ++ "] [DST=" ++ dst ++ "]\n" ++ text }

/-- The source-language resolution step at the top of translate_text: "auto"
is replaced by the detector result when that result is "vi" or "ja", and by
the default "vi" otherwise; an explicit source tag is kept unchanged. -/
def resolveSrc (langdetect : Except Unit String) (text src : String) : String :=
  if src = "auto" then
    let detected := detect_lang_simple langdetect text
    if detected = "vi" || detected = "ja" then detected else "vi"
  else src

/-- The remote-call section of translate_text: issue the request and convert
its outcome to the returned string, mirroring the try/except around the
chat-completion call and the truthiness test on the response content. -/
def translate_body (remote : Except String (Option String)) (src dst text : String) :
    String × List TranslateCall :=
  match remote with
  | Except.error e => ("Translation error: " ++ e, [mkTranslateCall src dst text])
  | Except.ok none => ("Translation failed", [mkTranslateCall src dst text])
  | Except.ok (some content) =>
      (if content = "" then "Translation failed" else pyStrip content,
        [mkTranslateCall src dst text])

/-- Embedding of translate_text. The remote oracle is the outcome of the
chat-completion call: an exception message, or a response whose content is
missing (none), or present. The returned list records the remote translation
calls issued (empty on the no-op path). -/
def translate_text (langdetect : Except Unit String)
    (remote : Except String (Option String)) (text src0 dst : String) :
    String × List TranslateCall :=
  if resolveSrc langdetect text src0 = dst then (text, [])
  else translate_body remote (resolveSrc langdetect text src0) dst text

/-- External effects performed by transcribe_bytes, in program order: writing
the temporary audio file, the remote transcription call (with the optional
language hint actually passed), and the removal attempt on the temporary
file. -/
inductive FsEffect where
  | writeTemp (bytes : List Nat)
  | remoteSTT (langHint : Option String)
  | removeTemp
deriving DecidableEq, Repr

/-- The cleanup handler of transcribe_bytes: os.remove may fail, and the
surrounding handler swallows that failure, so the handler never propagates an
exception. -/
def suppressOSError (removeOutcome : Except Unit Unit) : Except String Unit :=
  match removeOutcome with
  | Except.ok _ => Except.ok ()
  | Except.error _ => Except.ok ()

/-- Python try/finally semantics for an exceptional body and a finalizer: the
finalizer always runs; when it raises, its exception replaces the body result,
otherwise the body result (value or exception) is propagated. -/
def pyTryFinally (body : Except String String) (fin : Except String Unit) :
    Except String String :=
  match fin with
  | Except.error e => Except.error e
  | Except.ok _ => body

/-- Embedding of transcribe_bytes. The remote oracle is the outcome of the
transcription call (text, or an exception that propagates to the caller);
removeOutcome is whether os.remove on the temporary file succeeds. The
language hint is forwarded only when it is "vi" or "ja". -/
def transcribe_bytes (remote : Except String String) (removeOutcome : Except Unit Unit)
    (wav_bytes : List Nat) (lang_hint : String) :
    Except String String × List FsEffect :=
  let hint : Option String :=
    if lang_hint = "vi" || lang_hint = "ja" then some lang_hint else none
  let body : Except String String :=
    match remote with
    | Except.ok t => Except.ok (pyStrip t)
    | Except.error e => Except.error e
  (pyTryFinally body (suppressOSError removeOutcome),
    [FsEffect.writeTemp wav_bytes, FsEffect.remoteSTT hint, FsEffect.removeTemp])

/-- The one external call speak can issue: the remote speech synthesis
request with its voice and input text. -/
inductive TtsEffect where
  | remoteTTS (voice : String) (input : String)
deriving DecidableEq, Repr

/-- Embedding of speak. The remote oracle is the bytes the synthesis call
returns (always MP3 upstream); the convert oracle is the outcome of the local
MP3-to-WAV re-encoding (the WAV bytes, or an exception). Returns the
(bytes, mime) pair together with the trace of remote synthesis calls. -/
def speak (remote : List Nat) (convert : Except Unit (List Nat))
    (text voice fmt : String) : (List Nat × String) × List TtsEffect :=
  if pyStrip text = "" then (([], "audio/mp3"), [])
  else
    let raw := remote
    if fmt = "mp3" then ((raw, "audio/mp3"), [TtsEffect.remoteTTS voice text])
    else
      match convert with
      | Except.ok wavBytes => ((wavBytes, "audio/wav"), [TtsEffect.remoteTTS voice text])
      | Except.error _ => ((raw, "audio/mp3"), [TtsEffect.remoteTTS voice text])

/-- One recorded conversation turn, as appended to st.session_state.chat. -/
structure ChatTurn where
  speaker : String
  transcript : String
  translation : String
  src : String
  dst : String
deriving DecidableEq, Repr

/-- The conversation-mode append: the new turn is labelled "A" when the
current history length is even and "B" when it is odd, exactly as the
len-modulo-2 test in the handler. -/
def appendTurn (chat : List ChatTurn) (transcript translation src dst : String) :
    List ChatTurn :=
  chat ++ [{ speaker := if chat.length % 2 = 0 then "A" else "B",
             transcript := transcript, translation := translation,
             src := src, dst := dst }]

/-! ### Helper lemmas shared between claims -/

/-- Any kana/CJK character forces the fast path of the detector. -/
theorem detect_of_any_kana (langdetect : Except Unit String) (text : String)
    (h : text.toList.any isKanaCJK = true) :
    detect_lang_simple langdetect text = "ja" := by
  unfold detect_lang_simple
  rw [h]
  simp

/-- The trace of translate_body is always the single recorded request. -/
theorem translate_body_snd (remote : Except String (Option String))
    (src dst text : String) :
    (translate_body remote src dst text).2 = [mkTranslateCall src dst text] := by
  cases remote with
  | error e => rfl
  | ok o => cases o <;> rfl

/-! ### Claims -/

/-- Claim C1: every input string containing at least one character in the
kana or CJK-ideograph Unicode ranges makes detect_lang_simple return "ja",
for every possible behaviour of the statistical identifier (so the
identifier is never consulted on this path). -/
theorem detect_kana_cjk_returns_ja (langdetect : Except Unit String) (text : String)
    (h : text.toList.any isKanaCJK = true) :
    detect_lang_simple langdetect text = "ja" :=
  detect_of_any_kana langdetect text h

theorem detect_kana_cjk_returns_ja_witness :
    detect_lang_simple (Except.error ()) "やあ" = "ja" :=
  detect_kana_cjk_returns_ja (Except.error ()) "やあ" (by decide)

/-- Claim C2: with no kana/CJK character present, when the statistical
identifier raises or returns a code other than "ja" or "vi",
detect_lang_simple returns "vi" when every character is ASCII and "ja"
otherwise. -/
theorem detect_fallback_heuristic (langdetect : Except Unit String) (text : String)
    (hk : text.toList.any isKanaCJK = false)
    (hld : ∀ l, langdetect = Except.ok l → l ≠ "ja" ∧ l ≠ "vi") :
    detect_lang_simple langdetect text =
      (if text.toList.all (fun c => c.toNat < 128) then "vi" else "ja") := by
  unfold detect_lang_simple asciiHeuristic
  rw [hk]
  cases langdetect with
  | error e => simp
  | ok l =>
    obtain ⟨h1, h2⟩ := hld l rfl
    simp [h1, h2]

theorem detect_fallback_heuristic_witness :
    detect_lang_simple (Except.error ()) "hello" = "vi" := by
  have h := detect_fallback_heuristic (Except.error ()) "hello" (by decide)
    (fun l hl => by cases hl)
  rw [h]
  decide

/-- Claim C3: for a language code s of "vi" or "ja", translating from s to s
returns the text unchanged with no remote call; more generally this holds
whenever the resolved source equals the destination. -/
theorem translate_text_noop (langdetect : Except Unit String)
    (remote : Except String (Option String)) (text : String) :
    (∀ s, s = "vi" ∨ s = "ja" → translate_text langdetect remote text s s = (text, []))
    ∧ (∀ src dst, resolveSrc langdetect text src = dst →
        translate_text langdetect remote text src dst = (text, [])) := by
  have key : ∀ src dst, resolveSrc langdetect text src = dst →
      translate_text langdetect remote text src dst = (text, []) := by
    intro src dst h
    unfold translate_text
    rw [if_pos h]
  refine ⟨?_, key⟩
  intro s hs
  apply key
  rcases hs with h | h <;> subst h <;> rfl

theorem translate_text_noop_witness :
    translate_text (Except.error ()) (Except.ok (some "x")) "chào bạn" "vi" "vi"
      = ("chào bạn", []) :=
  (translate_text_noop (Except.error ()) (Except.ok (some "x")) "chào bạn").1
    "vi" (Or.inl rfl)

/-- Claim C4: for nonempty text made purely of kana/CJK characters the
"auto" source resolves to "ja" via the script fast path, every remote call
issued by translate_text then carries SRC=ja regardless of dst, and the
concrete input こんにちは with dst=vi issues exactly the one call tagged
SRC=ja, DST=vi. -/
theorem translate_auto_pure_kana (langdetect : Except Unit String)
    (remote : Except String (Option String)) (text : String)
    (hne : text.toList ≠ []) (hall : text.toList.all isKanaCJK = true) :
    resolveSrc langdetect text "auto" = "ja"
    ∧ (∀ dst, ((translate_text langdetect remote text "auto" dst).2).all
        (fun c => c.src = "ja") = true)
    ∧ (translate_text langdetect remote "こんにちは" "auto" "vi").2 =
        [mkTranslateCall "ja" "vi" "こんにちは"]
    ∧ (mkTranslateCall "ja" "vi" "こんにちは").userMessage
        = "[SRC=ja] [DST=vi]\nこんにちは" := by
  have hany : text.toList.any isKanaCJK = true := by
    rcases List.exists_mem_of_ne_nil _ hne with ⟨c, hc⟩
    exact List.any_eq_true.mpr ⟨c, hc, List.all_eq_true.mp hall c hc⟩
  have hdet := detect_of_any_kana langdetect text hany
  have hres : resolveSrc langdetect text "auto" = "ja" := by
    simp [resolveSrc, hdet]
  have hdet2 := detect_of_any_kana langdetect "こんにちは" (by decide)
  have hres2 : resolveSrc langdetect "こんにちは" "auto" = "ja" := by
    simp [resolveSrc, hdet2]
  refine ⟨hres, ?_, ?_, by decide⟩
  · intro dst
    unfold translate_text
    rw [hres]
    by_cases hdst : ("ja" : String) = dst
    · rw [if_pos hdst]; rfl
    · rw [if_neg hdst, translate_body_snd]
      simp [mkTranslateCall]
  · unfold translate_text
    rw [hres2, if_neg (by decide), translate_body_snd]

theorem translate_auto_pure_kana_witness :
    resolveSrc (Except.error ()) "こんにちは" "auto" = "ja" :=
  (translate_auto_pure_kana (Except.error ()) (Except.error "down") "こんにちは"
    (by decide) (by decide)).1

/-- Claim C5 counterexample: the input Xin chào contains the non-ASCII
character à, so when the detector actually reaches the ASCII fallback
heuristic (statistical identifier raising), it yields "ja", not "vi"; with
dst="ja" the router then short-circuits and issues zero remote calls rather
than the claimed one call tagged SRC=vi. -/
theorem xin_chao_ascii_fallback_refuted :
    detect_lang_simple (Except.error ()) "Xin chào" = "ja"
    ∧ translate_text (Except.error ()) (Except.ok (some "ハロー")) "Xin chào" "auto" "ja"
        = ("Xin chào", []) := by
  decide

/-- Claim C5 amended: for input Xin chào with src=auto and dst=ja, when the
statistical identifier returns "vi" the detector yields "vi", and exactly one
remote translation call is issued carrying tags SRC=vi and DST=ja; the ASCII
fallback heuristic cannot be the path that yields "vi" here, because à is
non-ASCII and the fallback would yield "ja". -/
theorem xin_chao_statistical_vi (remote : Except String (Option String)) :
    detect_lang_simple (Except.ok "vi") "Xin chào" = "vi"
    ∧ (translate_text (Except.ok "vi") remote "Xin chào" "auto" "ja").2 =
        [mkTranslateCall "vi" "ja" "Xin chào"]
    ∧ (mkTranslateCall "vi" "ja" "Xin chào").userMessage
        = "[SRC=vi] [DST=ja]\nXin chào" := by
  have hres : resolveSrc (Except.ok "vi") "Xin chào" "auto" = "vi" := by decide
  refine ⟨by decide, ?_, by decide⟩
  unfold translate_text
  rw [hres, if_neg (by decide), translate_body_snd]

/-- Claim C6: whenever a remote call is made, translate_text never raises:
an exception from the call becomes the in-band string Translation error
followed by the message, a missing or empty response content becomes the
fixed string Translation failed, and a nonempty content is returned
stripped. -/
theorem translate_text_error_handling (langdetect : Except Unit String)
    (remote : Except String (Option String)) (text src dst : String)
    (h : resolveSrc langdetect text src ≠ dst) :
    (translate_text langdetect remote text src dst).1 =
      match remote with
      | Except.error e => "Translation error: " ++ e
      | Except.ok none => "Translation failed"
      | Except.ok (some c) => if c = "" then "Translation failed" else pyStrip c := by
  unfold translate_text
  rw [if_neg h]
  cases remote with
  | error e => rfl
  | ok o => cases o <;> rfl

theorem translate_text_error_handling_witness :
    (translate_text (Except.error ()) (Except.error "boom") "hello" "vi" "ja").1
      = "Translation error: boom" := by
  rw [translate_text_error_handling (Except.error ()) (Except.error "boom")
    "hello" "vi" "ja" (by decide)]
  decide

/-- Claim C7: on every exit path of transcribe_bytes, whether the remote
transcription call succeeds or raises, the removal of the temporary file is
attempted, and a failing removal is suppressed: the result the caller sees
is the same as when removal succeeds. -/
theorem transcribe_bytes_cleanup (remote : Except String String)
    (removeOutcome : Except Unit Unit) (wav_bytes : List Nat) (lang_hint : String) :
    FsEffect.removeTemp ∈ (transcribe_bytes remote removeOutcome wav_bytes lang_hint).2
    ∧ (transcribe_bytes remote removeOutcome wav_bytes lang_hint).1
        = (transcribe_bytes remote (Except.ok ()) wav_bytes lang_hint).1 := by
  constructor
  · exact List.Mem.tail _ (List.Mem.tail _ (List.Mem.head _))
  · cases removeOutcome <;> rfl

/-- Claim C8: for every voice and format, speaking the empty text returns
empty bytes with the fixed default media type audio/mp3 and issues no remote
synthesis call, for any behaviour of the synthesis and conversion oracles. -/
theorem speak_empty_input (remote : List Nat) (convert : Except Unit (List Nat))
    (voice fmt : String) :
    speak remote convert "" voice fmt = (([], "audio/mp3"), []) := by
  rfl

/-- Claim C9: for nonempty text and a requested format other than mp3, when
the local re-encoding fails, speak returns the original upstream bytes with
media type audio/mp3 (after the single remote synthesis call) instead of
failing. -/
theorem speak_conversion_fallback (remote : List Nat) (voice text fmt : String)
    (hne : pyStrip text ≠ "") (hfmt : fmt ≠ "mp3") :
    speak remote (Except.error ()) text voice fmt
      = ((remote, "audio/mp3"), [TtsEffect.remoteTTS voice text]) := by
  unfold speak
  rw [if_neg hne, if_neg hfmt]

theorem speak_conversion_fallback_witness :
    speak [1, 2, 3] (Except.error ()) "hi" "alloy" "wav"
      = (([1, 2, 3], "audio/mp3"), [TtsEffect.remoteTTS "alloy" "hi"]) :=
  speak_conversion_fallback [1, 2, 3] "alloy" "hi" "wav" (by decide) (by decide)

/-- Claim C10: the speaker label of an appended turn is determined solely by
the parity of the number of turns already recorded: even length gives "A",
odd gives "B", and three consecutive appends from the empty history carry
labels A, B, A in order. -/
theorem chat_speaker_parity (chat : List ChatTurn) (t1 t2 s d : String) :
    (appendTurn chat t1 t2 s d).map ChatTurn.speaker
      = chat.map ChatTurn.speaker ++ [if chat.length % 2 = 0 then "A" else "B"]
    ∧ (appendTurn (appendTurn (appendTurn [] t1 t2 s d) t1 t2 s d) t1 t2 s d).map
        ChatTurn.speaker = ["A", "B", "A"] := by
  constructor
  · simp [appendTurn]
  · simp [appendTurn]

end JPViet
